import Mathlib

/-!
A verification development for the `two_way_nesting` serialization lesson.

The domain model (`Author`, `Book`, their class-level registries and the
derived lookup `Author.get_books`), the two schemas (`AuthorSchema`,
`BookSchema`) and the sample instances are translated from
`src/lib/two_way_nesting.py`.  The dump engine itself (field descriptors,
`dump` / `dump_many`, error taxonomy and the reference-traversal guard) is
provided by the external marshmallow library and is not part of `src/`; it
is modelled from the specification (sections 3, 4 and 7).

Python object identity is modelled with a heap of numbered objects: an
`ObjId` names an object, a `Store` holds every constructed object together
with the class-level registries `Author.all` and `Book.all`, and attribute
access is `getattr`.  Documents are ordered association lists, as the spec
requires insertion-order-preserving output.
-/

/-- An object identity: Python's `is` becomes equality of `ObjId`s. -/
abbrev ObjId := Nat

/-- An attribute value stored on a domain object: a plain string or a
reference to another object (e.g. `book.author`). -/
inductive Attr where
  | str (s : String)
  | ref (o : ObjId)
  deriving DecidableEq, Repr

/-- The attribute dictionary of one domain object, in assignment order. -/
abbrev Obj := List (String × Attr)

/-- The process state: the heap of constructed objects plus the class-level
registries `Author.all` and `Book.all` from `two_way_nesting.py`, and the
next fresh identity. -/
structure Store where
  heap : List (ObjId × Obj)
  authors : List ObjId
  books : List ObjId
  nextId : ObjId
  deriving Repr

/-- The store before any instance is constructed. -/
def emptyStore : Store := { heap := [], authors := [], books := [], nextId := 0 }

/-- Attribute access on a stored object, `getattr(o, n)`. -/
def getattr (st : Store) (o : ObjId) (n : String) : Option Attr :=
  match st.heap.lookup o with
  | some attrs => attrs.lookup n
  | none => none

/-- `Author.__init__` from `two_way_nesting.py`: sets `name` and `email`
and appends the new instance to the class-level registry `Author.all`. -/
def Author.init (st : Store) (name email : String) : ObjId × Store :=
  let i := st.nextId
  (i, { heap := st.heap ++ [(i, [("name", .str name), ("email", .str email)])],
        authors := st.authors ++ [i],
        books := st.books,
        nextId := i + 1 })

/-- `Book.__init__` from `two_way_nesting.py`: sets `isbn`, `title` and
`author` (a reference) and appends the new instance to `Book.all`. -/
def Book.init (st : Store) (isbn title : String) (author : ObjId) : ObjId × Store :=
  let i := st.nextId
  (i, { heap := st.heap ++ [(i, [("isbn", .str isbn), ("title", .str title),
                                 ("author", .ref author)])],
        authors := st.authors,
        books := st.books ++ [i],
        nextId := i + 1 })

/-- `Author.get_books` from `two_way_nesting.py`:
`[book for book in Book.all if book.author is self]`.  Identity (`is`)
is equality of object ids. -/
def Author.get_books (st : Store) (a : ObjId) : List ObjId :=
  st.books.filter (fun b =>
    match getattr st b "author" with
    | some (.ref x) => x == a
    | _ => false)

/-- A field descriptor.  Modelled from the spec (section 3): a plain string
field, a formatted email field, a singular nested field delegating to the
schema registered under the given name, and a derived-collection nested
field whose extractor is the `get_books` query ("all Books whose author is
this Author").  `AuthorSchema` uses `fstr`/`femail`, `BookSchema` uses
`fnested`; schema references are by name so that circular declarations are
resolved at dump time, as the spec requires. -/
inductive FieldD where
  | fstr
  | femail
  | fnested (r : String)
  | fbooksOf (r : String)
  deriving DecidableEq, Repr

/-- A schema: its named field descriptors in declaration order. -/
abbrev Schema := List (String × FieldD)

/-- The schema registry used to resolve nested schema references at dump
time (the spec's "reference, not ownership" relationship). -/
abbrev SEnv := List (String × Schema)

/-- The active traversal path of a dump call: the (schema, object) pairs
currently being resolved, innermost first. -/
abbrev TPath := List (String × ObjId)

/-- The output value of one field: a plain string, a nested document, or an
ordered sequence of nested documents. -/
inductive Value where
  | vstr (s : String)
  | vdoc (d : List (String × Value))
  | vlist (ds : List (List (String × Value)))

/-- An output document: an ordered mapping from field name to value. -/
abbrev Document := List (String × Value)

/-- The error taxonomy.  Modelled from the spec (section 7):
`missingAttribute` names the absent field, `format` carries the field name
and the offending raw value, `cyclicReference` carries the repeated
(schema, object) pair and the active traversal path (identifying every
participating schema).  `typeError` covers a non-string value reaching a
string field and `unknownSchema` an unresolvable nested schema reference;
`outOfFuel` is the recursion bound of the embedding and is never produced
by a dump whose traversal the guard bounds. -/
inductive DumpErr where
  | missingAttribute (field : String)
  | format (field : String) (value : String)
  | cyclicReference (schema : String) (obj : ObjId) (path : List (String × ObjId))
  | typeError (field : String)
  | unknownSchema (schema : String)
  | outOfFuel
  deriving DecidableEq, Repr

/-- Email well-formedness used by the formatted email field.  Modelled from
the spec: exactly one `@`, a nonempty local part, and a domain that
contains a dot and neither starts nor ends with one. -/
def isValidEmail (s : String) : Bool :=
  let cs := s.data
  let lp := cs.takeWhile (fun c => c ≠ '@')
  match cs.dropWhile (fun c => c ≠ '@') with
  | '@' :: dom =>
    !lp.isEmpty && !dom.isEmpty && dom.contains '.' && !dom.contains '@' &&
      dom.head? ≠ some '.' && dom.getLast? ≠ some '.'
  | _ => false

/-- Dumping a homogeneous collection through one schema: apply the
object-level dump (`recObj`) to each element in input order, failing on the
first element that fails.  Modelled from the spec (section 4.2). -/
def dumpManyV (recObj : String → ObjId → TPath → Except DumpErr Document)
    (sname : String) : List ObjId → TPath → Except DumpErr (List Document)
  | [], _ => .ok []
  | o :: rest, path =>
    match recObj sname o path with
    | .error e => .error e
    | .ok d =>
      match dumpManyV recObj sname rest path with
      | .error e => .error e
      | .ok ds => .ok (d :: ds)

/-- Dumping one field of one object.  Modelled from the spec (section 4.1):
a plain field reads the attribute, a formatted email field validates it, a
nested field delegates the referenced object to the nested schema
(`recObj`), and a derived-collection field dumps `Author.get_books` of the
object, in registration order. -/
def dumpFieldV (st : Store)
    (recObj : String → ObjId → TPath → Except DumpErr Document)
    (o : ObjId) (path : TPath) (n : String) : FieldD → Except DumpErr Value
  | .fstr =>
    match getattr st o n with
    | some (.str s) => .ok (.vstr s)
    | some (.ref _) => .error (.typeError n)
    | none => .error (.missingAttribute n)
  | .femail =>
    match getattr st o n with
    | some (.str s) =>
      if isValidEmail s then .ok (.vstr s) else .error (.format n s)
    | some (.ref _) => .error (.typeError n)
    | none => .error (.missingAttribute n)
  | .fnested r =>
    match getattr st o n with
    | some (.ref t) => (recObj r t path).map Value.vdoc
    | some (.str _) => .error (.typeError n)
    | none => .error (.missingAttribute n)
  | .fbooksOf r => (dumpManyV recObj r (Author.get_books st o) path).map Value.vlist

/-- Dumping the field list of a schema in declaration order, assembling the
document and failing fast on the first field error.  Modelled from the spec
(section 4.2). -/
def dumpFieldsV (st : Store)
    (recObj : String → ObjId → TPath → Except DumpErr Document)
    (o : ObjId) (path : TPath) : List (String × FieldD) → Except DumpErr Document
  | [] => .ok []
  | (n, fd) :: rest =>
    match dumpFieldV st recObj o path n fd with
    | .error e => .error e
    | .ok v =>
      match dumpFieldsV st recObj o path rest with
      | .error e => .error e
      | .ok d => .ok ((n, v) :: d)

/-- Dumping one object through the schema registered under `sname`.
Modelled from the spec (section 4.4): entering a (schema, object) pair
already on the active path is the cycle signal and raises
`cyclicReference`; otherwise the pair is pushed and the schema's fields are
dumped.  The fuel argument is the embedding's recursion bound; the
top-level entry point supplies more fuel than any guarded traversal can
consume. -/
def dumpObj (env : SEnv) (st : Store) :
    Nat → String → ObjId → TPath → Except DumpErr Document
  | 0 => fun _ _ _ => .error .outOfFuel
  | fuel + 1 => fun sname o path =>
    if (sname, o) ∈ path then .error (.cyclicReference sname o path)
    else
      match env.lookup sname with
      | none => .error (.unknownSchema sname)
      | some fs => dumpFieldsV st (dumpObj env st fuel) o ((sname, o) :: path) fs

/-- Fuel supplied at the top of a dump call: one more than the number of
distinct (schema, object) pairs the guard can admit on a path. -/
def topFuel (env : SEnv) (st : Store) : Nat := env.length * st.heap.length + 2

/-- `Schema.dump`: the top-level single-object entry point, starting from
the empty traversal path.  Modelled from the spec (section 4.5). -/
def dump (env : SEnv) (sname : String) (st : Store) (o : ObjId) :
    Except DumpErr Document :=
  dumpObj env st (topFuel env st) sname o []

/-- `Schema(many=True).dump`: applies the single-object dump to each object
in input order, failing on the first object that fails.  Modelled from the
spec (section 4.2). -/
def dump_many (env : SEnv) (sname : String) (st : Store) (os : List ObjId) :
    Except DumpErr (List Document) :=
  dumpManyV (dumpObj env st (topFuel env st)) sname os []

/-- `AuthorSchema` from `two_way_nesting.py`: `name = fields.Str()`,
`email = fields.Email()`; it does not nest books. -/
def AuthorSchema : Schema := [("name", .fstr), ("email", .femail)]

/-- `BookSchema` from `two_way_nesting.py`: `isbn = fields.Str()`,
`title = fields.Str()`, `author = fields.Nested(AuthorSchema())`. -/
def BookSchema : Schema :=
  [("isbn", .fstr), ("title", .fstr), ("author", .fnested "AuthorSchema")]

/-- The schema registry of `two_way_nesting.py`: nesting is declared in one
direction only (Book nests Author). -/
def envRepo : SEnv := [("AuthorSchema", AuthorSchema), ("BookSchema", BookSchema)]

/-- Modelled from the spec: the bidirectional declaration the guard must
reject — an author schema that also nests "all Books whose author is this
Author" through the book schema, while the book schema nests the author
schema back. -/
def AuthorSchemaBidi : Schema :=
  [("name", .fstr), ("email", .femail), ("books", .fbooksOf "BookSchemaBidi")]

/-- Modelled from the spec: the book side of the bidirectional pair. -/
def BookSchemaBidi : Schema :=
  [("isbn", .fstr), ("title", .fstr), ("author", .fnested "AuthorSchemaBidi")]

/-- The registry holding the bidirectional pair of schemas. -/
def envBidi : SEnv :=
  [("AuthorSchemaBidi", AuthorSchemaBidi), ("BookSchemaBidi", BookSchemaBidi)]

/-- Modelled from the spec: the item schema of the derived-collection test
(a book document without the author, so that nesting stays one-way). -/
def BookItemSchema : Schema := [("isbn", .fstr), ("title", .fstr)]

/-- Modelled from the spec: an author schema exposing `books` as the
derived collection "all Books whose author is this Author". -/
def AuthorWithBooksSchema : Schema :=
  [("name", .fstr), ("email", .femail), ("books", .fbooksOf "BookItemSchema")]

/-- Registry for the derived-collection schemas. -/
def envDerived : SEnv :=
  [("AuthorWithBooksSchema", AuthorWithBooksSchema), ("BookItemSchema", BookItemSchema)]

/-! The sample instances of `two_way_nesting.py`, in construction order. -/

/-- `author_1 = Author(name="William Faulkner", email="will@email.com")`. -/
def demo1 : ObjId × Store := Author.init emptyStore "William Faulkner" "will@email.com"

/-- The identity of `author_1`. -/
def author_1 : ObjId := demo1.fst

/-- `book_1 = Book(isbn="067973225X", title="As I Lay Dying", author=author_1)`. -/
def demo2 : ObjId × Store := Book.init demo1.snd "067973225X" "As I Lay Dying" author_1

/-- The identity of `book_1`. -/
def book_1 : ObjId := demo2.fst

/-- `book_2 = Book(isbn="0679732241", title="The Sound and the Fury", author=author_1)`. -/
def demo3 : ObjId × Store :=
  Book.init demo2.snd "0679732241" "The Sound and the Fury" author_1

/-- The identity of `book_2`. -/
def book_2 : ObjId := demo3.fst

/-- `author_2 = Author(name="Colson Whitehead", email="colson@email.com")`. -/
def demo4 : ObjId × Store := Author.init demo3.snd "Colson Whitehead" "colson@email.com"

/-- The identity of `author_2`. -/
def author_2 : ObjId := demo4.fst

/-- `book_3 = Book(isbn="0385542364", title="The Underground Railroad", author=author_2)`. -/
def demo5 : ObjId × Store :=
  Book.init demo4.snd "0385542364" "The Underground Railroad" author_2

/-- The identity of `book_3`. -/
def book_3 : ObjId := demo5.fst

/-- The store after all five sample instances are constructed. -/
def demoStore : Store := demo5.snd

/-- `book_result = BookSchema(many=True).dump([book_1, book_2, book_3])`. -/
def book_result : Except DumpErr (List Document) :=
  dump_many envRepo "BookSchema" demoStore [book_1, book_2, book_3]

/-- `author_result = AuthorSchema(many=True).dump([author_1, author_2])`. -/
def author_result : Except DumpErr (List Document) :=
  dump_many envRepo "AuthorSchema" demoStore [author_1, author_2]

/-- A field descriptor whose extractor is an attribute read (everything but
the derived-collection query). -/
def attrBacked : FieldD → Bool
  | .fbooksOf _ => false
  | _ => true

/-- The value of dumping one object through `AuthorSchema`: read `name`,
then read and validate `email`, assembling the two-field document.  Used as
the closed form of `AuthorSchema` dumps in the proofs below. -/
def authorEval (st : Store) (a : ObjId) : Except DumpErr Document :=
  match getattr st a "name" with
  | some (.str nm) =>
    (match getattr st a "email" with
      | some (.str em) =>
        if isValidEmail em then .ok [("name", .vstr nm), ("email", .vstr em)]
        else .error (.format "email" em)
      | some (.ref _) => .error (.typeError "email")
      | none => .error (.missingAttribute "email"))
  | some (.ref _) => .error (.typeError "name")
  | none => .error (.missingAttribute "name")

/-- One constructor call of the domain model: `Author(name, email)` or
`Book(isbn, title, author)`. -/
inductive Ctor where
  | newAuthor (name email : String)
  | newBook (isbn title : String) (author : ObjId)

/-- Run a sequence of constructor calls against a store, in order. -/
def runCtors : List Ctor → Store → Store
  | [], st => st
  | .newAuthor n e :: rest, st => runCtors rest (Author.init st n e).snd
  | .newBook i t a :: rest, st => runCtors rest (Book.init st i t a).snd

/-- Claim-side recomputation for C4: the ids of the Books whose constructor
named author `a`, at the identities construction assigns (starting from
`k`), in registration order. -/
def booksConstructedWith : List Ctor → Nat → ObjId → List ObjId
  | [], _, _ => []
  | .newAuthor _ _ :: rest, k, a => booksConstructedWith rest (k + 1) a
  | .newBook _ _ a' :: rest, k, a =>
    if a' = a then k :: booksConstructedWith rest (k + 1) a
    else booksConstructedWith rest (k + 1) a

/-- Claim-side recomputation for C10: the ids of the Authors constructed so
far, in construction order. -/
def authorIdsSpec : List Ctor → Nat → List ObjId
  | [], _ => []
  | .newAuthor _ _ :: rest, k => k :: authorIdsSpec rest (k + 1)
  | .newBook _ _ _ :: rest, k => authorIdsSpec rest (k + 1)

/-- Claim-side recomputation for C10: the ids of the Books constructed so
far, in construction order. -/
def bookIdsSpec : List Ctor → Nat → List ObjId
  | [], _ => []
  | .newAuthor _ _ :: rest, k => bookIdsSpec rest (k + 1)
  | .newBook _ _ _ :: rest, k => k :: bookIdsSpec rest (k + 1)

/-- Store invariant: every heap key is below the next fresh identity. -/
def heapKeysBelow (st : Store) : Prop := ∀ p ∈ st.heap, p.1 < st.nextId

/-- Store invariant: every registered book id is below the next fresh
identity. -/
def booksBelow (st : Store) : Prop := ∀ b ∈ st.books, b < st.nextId

/-- A store holding a single author with no books, for exercising the
bidirectional schemas on an object whose traversal meets no cycle. -/
def soloStore : Store := (Author.init emptyStore "A" "a@b.co").snd

/-- A store holding one author whose `email` attribute is present but
malformed. -/
def badEmailStore : Store := (Author.init emptyStore "Ann" "not-an-email").snd

/-- A store holding one object that has a malformed `email` attribute and
no `name` attribute at all. -/
def partialStore : Store :=
  { heap := [(0, [("email", Attr.str "bad")])], authors := [], books := [], nextId := 1 }

/-- A store holding one object that has a `name` attribute but no `email`
attribute. -/
def nameOnlyStore : Store :=
  { heap := [(0, [("name", Attr.str "Ada")])], authors := [], books := [], nextId := 1 }

/-- A store built by the Author constructor with a malformed email. -/
def oopsStore : Store := (Author.init emptyStore "Bad" "oops").snd

/-- A schema declaring the formatted email field before a plain string
field, to order a format failure ahead of a missing attribute. -/
def EmailFirstSchema : Schema := [("email", .femail), ("name", .fstr)]

/-- Registry holding `EmailFirstSchema`. -/
def envEmailFirst : SEnv := [("EmailFirstSchema", EmailFirstSchema)]

/-- A sixth construction: a second Author with exactly the same `name` and
`email` as `author_1`. -/
def demo6 : ObjId × Store := Author.init demoStore "William Faulkner" "will@email.com"

/-- The identity of the duplicate author. -/
def author_dup : ObjId := demo6.fst

/-- The store after the duplicate author is constructed. -/
def dupStore : Store := demo6.snd

/-! Unfolding lemmas for the engine. -/

/-- One step of `dumpObj` at positive fuel. -/
theorem dumpObj_succ (env : SEnv) (st : Store) (f : Nat) (sname : String)
    (o : ObjId) (path : TPath) :
    dumpObj env st (f + 1) sname o path =
      if (sname, o) ∈ path then .error (.cyclicReference sname o path)
      else
        match env.lookup sname with
        | none => .error (.unknownSchema sname)
        | some fs => dumpFieldsV st (dumpObj env st f) o ((sname, o) :: path) fs := rfl

/-- `dump` unfolded one level: resolve the schema and dump its fields with
the (schema, object) pair pushed on the (previously empty) path. -/
theorem dump_eq (env : SEnv) (sname : String) (st : Store) (o : ObjId) :
    dump env sname st o =
      match env.lookup sname with
      | none => .error (.unknownSchema sname)
      | some fs =>
        dumpFieldsV st (dumpObj env st (env.length * st.heap.length + 1)) o
          [(sname, o)] fs := rfl

/-- `dump_many` on a cons: dump the head at top level, then the rest. -/
theorem dump_many_cons (env : SEnv) (sname : String) (st : Store) (o : ObjId)
    (rest : List ObjId) :
    dump_many env sname st (o :: rest) =
      match dump env sname st o with
      | .error e => .error e
      | .ok d =>
        match dump_many env sname st rest with
        | .error e => .error e
        | .ok ds => .ok (d :: ds) := rfl

/-- Schema resolution in the repository registry. -/
theorem envRepo_lookup_author : envRepo.lookup "AuthorSchema" = some AuthorSchema := rfl

/-- Schema resolution in the repository registry. -/
theorem envRepo_lookup_book : envRepo.lookup "BookSchema" = some BookSchema := rfl

/-- Dumping the fields of `AuthorSchema` never recurses into another
schema, so it is independent of the nested-dump callback and the path, and
equals its closed form `authorEval`. -/
theorem dumpFieldsV_author (st : Store)
    (recObj : String → ObjId → TPath → Except DumpErr Document)
    (o : ObjId) (path : TPath) :
    dumpFieldsV st recObj o path AuthorSchema = authorEval st o := by
  cases hn : getattr st o "name" with
  | none => simp [dumpFieldsV, dumpFieldV, AuthorSchema, authorEval, hn]
  | some a1 =>
    cases a1 with
    | ref x => simp [dumpFieldsV, dumpFieldV, AuthorSchema, authorEval, hn]
    | str nm =>
      cases he : getattr st o "email" with
      | none => simp [dumpFieldsV, dumpFieldV, AuthorSchema, authorEval, hn, he]
      | some a2 =>
        cases a2 with
        | ref y => simp [dumpFieldsV, dumpFieldV, AuthorSchema, authorEval, hn, he]
        | str em =>
          cases hv : isValidEmail em <;>
            simp [dumpFieldsV, dumpFieldV, AuthorSchema, authorEval, hn, he, hv]

/-- Dumping an object through `AuthorSchema` at any positive fuel and any
path not already holding the pair equals the closed form `authorEval`. -/
theorem dumpObj_author (st : Store) (f : Nat) (a : ObjId) (path : TPath)
    (hp : ("AuthorSchema", a) ∉ path) :
    dumpObj envRepo st (f + 1) "AuthorSchema" a path = authorEval st a := by
  rw [dumpObj_succ, if_neg hp, envRepo_lookup_author]
  exact dumpFieldsV_author st (dumpObj envRepo st f) a (("AuthorSchema", a) :: path)

/-- C1, counterexample: with the bidirectional pair of schemas declared, an
Author that has no Books dumps successfully — the dump raises no
`CyclicReferenceError`, refuting the claim for this object. -/
theorem c1_counterexample :
    dump envBidi "AuthorSchemaBidi" soloStore 0 =
      .ok [("name", .vstr "A"), ("email", .vstr "a@b.co"), ("books", .vlist [])] := rfl

/-- C1, amended: with the bidirectional pair of schemas declared, every
dump whose traversal revisits a (schema, object) pair — which happens for
each of the repository's three Books and for both Authors, since each has
at least one Book — fails with `CyclicReferenceError` carrying the repeated
pair and the traversal path naming both participating schemas, instead of
recursing unboundedly. -/
theorem c1_amended_cycle_detection :
    dump envBidi "BookSchemaBidi" demoStore book_1 =
      .error (.cyclicReference "BookSchemaBidi" book_1
        [("AuthorSchemaBidi", author_1), ("BookSchemaBidi", book_1)]) ∧
    dump envBidi "BookSchemaBidi" demoStore book_2 =
      .error (.cyclicReference "AuthorSchemaBidi" author_1
        [("BookSchemaBidi", book_1), ("AuthorSchemaBidi", author_1),
         ("BookSchemaBidi", book_2)]) ∧
    dump envBidi "BookSchemaBidi" demoStore book_3 =
      .error (.cyclicReference "BookSchemaBidi" book_3
        [("AuthorSchemaBidi", author_2), ("BookSchemaBidi", book_3)]) ∧
    dump envBidi "AuthorSchemaBidi" demoStore author_1 =
      .error (.cyclicReference "AuthorSchemaBidi" author_1
        [("BookSchemaBidi", book_1), ("AuthorSchemaBidi", author_1)]) ∧
    dump envBidi "AuthorSchemaBidi" demoStore author_2 =
      .error (.cyclicReference "AuthorSchemaBidi" author_2
        [("BookSchemaBidi", book_3), ("AuthorSchemaBidi", author_2)]) :=
  ⟨rfl, rfl, rfl, rfl, rfl⟩

/-- C5: the end-to-end example.  Dumping the three Books through
`BookSchema(many=True)` yields exactly three documents, each with `isbn`,
`title` and a nested author document holding `name` and `email`; dumping
the two Authors through `AuthorSchema(many=True)` yields exactly two
documents holding only `name` and `email` (no books field). -/
theorem c5_end_to_end_documents :
    book_result = .ok
      [[("isbn", .vstr "067973225X"), ("title", .vstr "As I Lay Dying"),
        ("author", .vdoc [("name", .vstr "William Faulkner"),
                          ("email", .vstr "will@email.com")])],
       [("isbn", .vstr "0679732241"), ("title", .vstr "The Sound and the Fury"),
        ("author", .vdoc [("name", .vstr "William Faulkner"),
                          ("email", .vstr "will@email.com")])],
       [("isbn", .vstr "0385542364"), ("title", .vstr "The Underground Railroad"),
        ("author", .vdoc [("name", .vstr "Colson Whitehead"),
                          ("email", .vstr "colson@email.com")])]] ∧
    author_result = .ok
      [[("name", .vstr "William Faulkner"), ("email", .vstr "will@email.com")],
       [("name", .vstr "Colson Whitehead"), ("email", .vstr "colson@email.com")]] :=
  ⟨rfl, rfl⟩

/-- `dumpFieldsV` on a cons: dump the head field, then the rest. -/
theorem dumpFieldsV_cons (st : Store)
    (recObj : String → ObjId → TPath → Except DumpErr Document)
    (o : ObjId) (path : TPath) (n : String) (fd : FieldD)
    (rest : List (String × FieldD)) :
    dumpFieldsV st recObj o path ((n, fd) :: rest) =
      match dumpFieldV st recObj o path n fd with
      | .error e => .error e
      | .ok v =>
        match dumpFieldsV st recObj o path rest with
        | .error e => .error e
        | .ok d => .ok ((n, v) :: d) := rfl

/-- A successful field-list dump produces the declared field names as keys,
in declaration order. -/
theorem dumpFieldsV_ok_keys (st : Store)
    (recObj : String → ObjId → TPath → Except DumpErr Document)
    (o : ObjId) (path : TPath) :
    ∀ (fs : List (String × FieldD)) (d : Document),
      dumpFieldsV st recObj o path fs = .ok d → d.map Prod.fst = fs.map Prod.fst := by
  intro fs
  induction fs with
  | nil =>
    intro d h
    simp only [dumpFieldsV] at h
    cases h
    rfl
  | cons p rest ih =>
    intro d h
    obtain ⟨n, fd⟩ := p
    simp only [dumpFieldsV] at h
    cases h1 : dumpFieldV st recObj o path n fd with
    | error e => rw [h1] at h; cases h
    | ok v =>
      rw [h1] at h
      cases h2 : dumpFieldsV st recObj o path rest with
      | error e => rw [h2] at h; cases h
      | ok d0 =>
        rw [h2] at h
        cases h
        simp [ih d0 h2]

/-- An attribute-backed field whose attribute is absent fails with
`MissingAttributeError` naming the field. -/
theorem dumpFieldV_missing (st : Store)
    (recObj : String → ObjId → TPath → Except DumpErr Document)
    (o : ObjId) (path : TPath) (n : String) (fd : FieldD)
    (hb : attrBacked fd = true) (hn : getattr st o n = none) :
    dumpFieldV st recObj o path n fd = .error (.missingAttribute n) := by
  cases fd with
  | fstr => simp [dumpFieldV, hn]
  | femail => simp [dumpFieldV, hn]
  | fnested r => simp [dumpFieldV, hn]
  | fbooksOf r => simp [attrBacked] at hb

/-- If every field declared before a missing attribute-backed field
succeeds, the field-list dump fails with `MissingAttributeError` naming
that field. -/
theorem dumpFieldsV_first_missing (st : Store)
    (recObj : String → ObjId → TPath → Except DumpErr Document)
    (o : ObjId) (path : TPath) :
    ∀ (pre : List (String × FieldD)) (n : String) (fd : FieldD)
      (rest : List (String × FieldD)),
      attrBacked fd = true → getattr st o n = none →
      (∀ m g, (m, g) ∈ pre → ∃ v, dumpFieldV st recObj o path m g = .ok v) →
      dumpFieldsV st recObj o path (pre ++ (n, fd) :: rest) =
        .error (.missingAttribute n) := by
  intro pre
  induction pre with
  | nil =>
    intro n fd rest hb hn _
    simp only [List.nil_append, dumpFieldsV,
      dumpFieldV_missing st recObj o path n fd hb hn]
  | cons p pre ih =>
    intro n fd rest hb hn hpre
    obtain ⟨m, g⟩ := p
    obtain ⟨v, hv⟩ := hpre m g (by simp)
    have hrest := ih n fd rest hb hn (fun m' g' hm' => hpre m' g' (by simp [hm']))
    simp only [List.cons_append, dumpFieldsV_cons, hv, hrest]

/-- A field-list dump never returns a document when some attribute-backed
field's attribute is absent. -/
theorem dumpFieldsV_missing_not_ok (st : Store)
    (recObj : String → ObjId → TPath → Except DumpErr Document)
    (o : ObjId) (path : TPath) :
    ∀ (fs : List (String × FieldD)) (n : String) (fd : FieldD) (d : Document),
      (n, fd) ∈ fs → attrBacked fd = true → getattr st o n = none →
      dumpFieldsV st recObj o path fs = .ok d → False := by
  intro fs
  induction fs with
  | nil =>
    intro n fd d hmem _ _ _
    cases hmem
  | cons p rest ih =>
    intro n fd d hmem hb hn hok
    obtain ⟨m, g⟩ := p
    rcases List.mem_cons.mp hmem with heq | htail
    · cases heq
      rw [show dumpFieldsV st recObj o path ((n, fd) :: rest) =
            .error (.missingAttribute n) from by
          simpa using dumpFieldsV_first_missing st recObj o path [] n fd rest hb hn
            (by intro m' g' hm'; cases hm')] at hok
      cases hok
    · simp only [dumpFieldsV] at hok
      cases h1 : dumpFieldV st recObj o path m g with
      | error e => rw [h1] at hok; cases hok
      | ok v =>
        rw [h1] at hok
        cases h2 : dumpFieldsV st recObj o path rest with
        | error e => rw [h2] at hok; cases hok
        | ok d0 => exact ih n fd d0 htail hb hn h2

/-- C2, counterexample: the author constructed with the malformed email
`"not-an-email"` exposes both attributes `AuthorSchema` declares, yet
`dump` raises `FormatError` instead of returning a document. -/
theorem c2_counterexample :
    (getattr badEmailStore 0 "name").isSome = true ∧
    (getattr badEmailStore 0 "email").isSome = true ∧
    dump envRepo "AuthorSchema" badEmailStore 0 =
      .error (.format "email" "not-an-email") :=
  ⟨rfl, rfl, rfl⟩

/-- C2, amended: whenever `dump` succeeds — in particular on any object all
of whose declared attributes are present and pass their field's
formatting — the returned document's keys are exactly the schema's
declared field names, in declaration order. -/
theorem c2_keys_of_successful_dump (env : SEnv) (sname : String) (st : Store)
    (o : ObjId) (fs : Schema) (d : Document)
    (hs : env.lookup sname = some fs) (hd : dump env sname st o = .ok d) :
    d.map Prod.fst = fs.map Prod.fst := by
  rw [dump_eq, hs] at hd
  exact dumpFieldsV_ok_keys st _ o [(sname, o)] fs d hd

/-- C2, witness: `AuthorSchema.dump(author_1)` succeeds and its keys are
`name`, `email` in declaration order. -/
theorem c2_witness :
    [("name", Value.vstr "William Faulkner"),
     ("email", Value.vstr "will@email.com")].map Prod.fst = AuthorSchema.map Prod.fst :=
  c2_keys_of_successful_dump envRepo "AuthorSchema" demoStore author_1 AuthorSchema
    [("name", Value.vstr "William Faulkner"), ("email", Value.vstr "will@email.com")]
    rfl rfl

/-- C7, counterexample: dumping an object that lacks the declared field
`name` through a schema whose earlier field `email` holds a malformed value
raises `FormatError` for `email`, not `MissingAttributeError` naming
`name`. -/
theorem c7_counterexample :
    getattr partialStore 0 "name" = none ∧
    dump envEmailFirst "EmailFirstSchema" partialStore 0 =
      .error (.format "email" "bad") :=
  ⟨rfl, rfl⟩

/-- C7, amended: when an object lacks the attribute of a declared
attribute-backed field, `dump` never returns a document; and if every field
declared before the missing one succeeds, it fails with
`MissingAttributeError` naming that field.  (An earlier declared field may
fail first, in which case that earlier error is raised — fail-fast in
declaration order.) -/
theorem c7_missing_attribute_fails :
    (∀ (env : SEnv) (sname : String) (st : Store) (o : ObjId) (fs : Schema)
        (n : String) (fd : FieldD) (d : Document),
        env.lookup sname = some fs → (n, fd) ∈ fs → attrBacked fd = true →
        getattr st o n = none → dump env sname st o = .ok d → False)
    ∧
    (∀ (env : SEnv) (sname : String) (st : Store) (o : ObjId)
        (pre : Schema) (n : String) (fd : FieldD) (rest : Schema),
        env.lookup sname = some (pre ++ (n, fd) :: rest) → attrBacked fd = true →
        getattr st o n = none →
        (∀ m g, (m, g) ∈ pre →
          ∃ v, dumpFieldV st (dumpObj env st (env.length * st.heap.length + 1)) o
                 [(sname, o)] m g = .ok v) →
        dump env sname st o = .error (.missingAttribute n)) := by
  constructor
  · intro env sname st o fs n fd d hs hmem hb hn hok
    rw [dump_eq, hs] at hok
    exact dumpFieldsV_missing_not_ok st _ o [(sname, o)] fs n fd d hmem hb hn hok
  · intro env sname st o pre n fd rest hs hb hn hpre
    rw [dump_eq, hs]
    exact dumpFieldsV_first_missing st _ o [(sname, o)] pre n fd rest hb hn hpre

/-- C7, witness: an object with a `name` but no `email` dumped through
`AuthorSchema` fails with `MissingAttributeError` naming `email`. -/
theorem c7_witness :
    dump envRepo "AuthorSchema" nameOnlyStore 0 =
      .error (.missingAttribute "email") :=
  c7_missing_attribute_fails.2 envRepo "AuthorSchema" nameOnlyStore 0
    [("name", .fstr)] "email" .femail [] rfl rfl rfl
    (by
      intro m g hm
      rw [List.mem_singleton] at hm
      cases hm
      exact ⟨.vstr "Ada", rfl⟩)

/-- C8, counterexample: an object whose `email` attribute is the malformed
string `"bad"` but which lacks `name` fails with `MissingAttributeError`
for `name`, not with `FormatError` reporting the email value — the earlier
declared field fails first. -/
theorem c8_counterexample :
    isValidEmail "bad" = false ∧
    dump envRepo "AuthorSchema" partialStore 0 =
      .error (.missingAttribute "name") :=
  ⟨rfl, rfl⟩

/-- C8, amended: any object whose earlier declared field `name` resolves
and whose `email` attribute is a malformed string fails with `FormatError`
reporting the field name and the offending value. -/
theorem c8_format_error_on_malformed_email (st : Store) (o : ObjId)
    (nm em : String)
    (h1 : getattr st o "name" = some (.str nm))
    (h2 : getattr st o "email" = some (.str em))
    (h3 : isValidEmail em = false) :
    dump envRepo "AuthorSchema" st o = .error (.format "email" em) := by
  simp only [dump_eq, envRepo_lookup_author]
  rw [dumpFieldsV_author]
  simp [authorEval, h1, h2, h3]

/-- C8, witness: the author constructed with the malformed email `"oops"`
fails with `FormatError` naming the field and the value. -/
theorem c8_witness :
    dump envRepo "AuthorSchema" oopsStore 0 = .error (.format "email" "oops") :=
  c8_format_error_on_malformed_email oopsStore 0 "Bad" "oops" rfl rfl rfl

/-- C3: dumping a Book through `BookSchema` delegates the `author` entry to
`AuthorSchema`'s dump of the Book's `author` reference: the whole Book
document is the author dump's result with the `isbn` and `title` strings
and the nested author document assembled in declaration order (and any
author-dump failure propagates). -/
theorem c3_nested_author_delegation (st : Store) (b a : ObjId) (i t : String)
    (hi : getattr st b "isbn" = some (.str i))
    (ht : getattr st b "title" = some (.str t))
    (ha : getattr st b "author" = some (.ref a)) :
    dump envRepo "BookSchema" st b =
      (dump envRepo "AuthorSchema" st a).map
        (fun da => [("isbn", Value.vstr i), ("title", Value.vstr t),
                    ("author", Value.vdoc da)]) := by
  have hA : dump envRepo "AuthorSchema" st a = authorEval st a := by
    simp only [dump_eq, envRepo_lookup_author]
    exact dumpFieldsV_author st _ a [("AuthorSchema", a)]
  rw [hA]
  simp only [dump_eq, envRepo_lookup_book]
  simp only [BookSchema, dumpFieldsV_cons, dumpFieldV, hi, ht, ha]
  rw [dumpObj_author st _ a [("BookSchema", b)] (by simp)]
  cases hE : authorEval st a <;> simp [Except.map, dumpFieldsV]

/-- C3, witness: `book_1`'s dump equals `AuthorSchema`'s dump of `author_1`
placed under the `author` key after `isbn` and `title`. -/
theorem c3_witness :
    dump envRepo "BookSchema" demoStore book_1 =
      (dump envRepo "AuthorSchema" demoStore author_1).map
        (fun da => [("isbn", Value.vstr "067973225X"),
                    ("title", Value.vstr "As I Lay Dying"),
                    ("author", Value.vdoc da)]) :=
  c3_nested_author_delegation demoStore book_1 author_1 "067973225X" "As I Lay Dying"
    rfl rfl rfl

/-- `dumpManyV` on a cons: dump the head object, then the rest. -/
theorem dumpManyV_cons (recObj : String → ObjId → TPath → Except DumpErr Document)
    (sname : String) (o : ObjId) (rest : List ObjId) (path : TPath) :
    dumpManyV recObj sname (o :: rest) path =
      match recObj sname o path with
      | .error e => .error e
      | .ok d =>
        match dumpManyV recObj sname rest path with
        | .error e => .error e
        | .ok ds => .ok (d :: ds) := rfl

/-- C6: many-mode dumping is exactly the element-wise single-object dump in
input order — it returns `[S.dump(o1), S.dump(o2), ...]` sequenced
fail-fast, with no reordering, insertion or omission. -/
theorem c6_dump_many_elementwise (env : SEnv) (sname : String) (st : Store)
    (os : List ObjId) :
    dump_many env sname st os = os.mapM (dump env sname st) := by
  induction os with
  | nil => rfl
  | cons o rest ih =>
    rw [dump_many_cons, List.mapM_cons]
    cases h : dump env sname st o with
    | error e => simp [Bind.bind, Except.bind]
    | ok d =>
      simp only [ih]
      cases h2 : rest.mapM (dump env sname st) <;>
        simp [Bind.bind, Except.bind, pure, Except.pure]

/-! Extensionality of the engine in the store: the dump depends only on the
results of attribute reads and on the `Book.all` registry. -/

/-- `get_books` depends only on attribute reads and the book registry. -/
theorem get_books_ext (st st' : Store)
    (hg : ∀ q m, getattr st q m = getattr st' q m) (hb : st.books = st'.books)
    (a : ObjId) : Author.get_books st a = Author.get_books st' a := by
  unfold Author.get_books
  rw [← hb]
  exact List.filter_congr (fun b _ => by rw [hg b "author"])

/-- `dumpManyV` only depends on the object-level dump pointwise. -/
theorem dumpManyV_ext
    (recObj recObj' : String → ObjId → TPath → Except DumpErr Document)
    (hrec : ∀ r u p, recObj r u p = recObj' r u p) (sname : String) :
    ∀ (os : List ObjId) (path : TPath),
      dumpManyV recObj sname os path = dumpManyV recObj' sname os path := by
  intro os
  induction os with
  | nil => intro path; rfl
  | cons o rest ih =>
    intro path
    simp only [dumpManyV_cons, hrec, ih]

/-- A field dump is unchanged when attribute reads, the book registry and
the nested dump agree. -/
theorem dumpFieldV_ext (st st' : Store)
    (recObj recObj' : String → ObjId → TPath → Except DumpErr Document)
    (hg : ∀ q m, getattr st q m = getattr st' q m) (hb : st.books = st'.books)
    (hrec : ∀ r u p, recObj r u p = recObj' r u p)
    (o : ObjId) (path : TPath) (n : String) (fd : FieldD) :
    dumpFieldV st recObj o path n fd = dumpFieldV st' recObj' o path n fd := by
  cases fd with
  | fstr => simp only [dumpFieldV]; rw [hg o n]
  | femail => simp only [dumpFieldV]; rw [hg o n]
  | fnested r =>
    simp only [dumpFieldV]
    rw [hg o n]
    simp only [hrec]
  | fbooksOf r =>
    simp only [dumpFieldV]
    rw [get_books_ext st st' hg hb o, dumpManyV_ext recObj recObj' hrec r]

/-- A field-list dump is unchanged when attribute reads, the book registry
and the nested dump agree. -/
theorem dumpFieldsV_ext (st st' : Store)
    (recObj recObj' : String → ObjId → TPath → Except DumpErr Document)
    (hg : ∀ q m, getattr st q m = getattr st' q m) (hb : st.books = st'.books)
    (hrec : ∀ r u p, recObj r u p = recObj' r u p) (o : ObjId) (path : TPath) :
    ∀ fs : List (String × FieldD),
      dumpFieldsV st recObj o path fs = dumpFieldsV st' recObj' o path fs := by
  intro fs
  induction fs with
  | nil => rfl
  | cons p rest ih =>
    obtain ⟨n, fd⟩ := p
    simp only [dumpFieldsV_cons,
      dumpFieldV_ext st st' recObj recObj' hg hb hrec o path n fd, ih]

/-- The object-level dump is unchanged between two stores that agree on
every attribute read and on the book registry. -/
theorem dumpObj_ext (env : SEnv) (st st' : Store)
    (hg : ∀ q m, getattr st q m = getattr st' q m) (hb : st.books = st'.books) :
    ∀ (f : Nat) (sname : String) (o : ObjId) (path : TPath),
      dumpObj env st f sname o path = dumpObj env st' f sname o path := by
  intro f
  induction f with
  | zero => intro sname o path; rfl
  | succ f ih =>
    intro sname o path
    rw [dumpObj_succ, dumpObj_succ]
    by_cases hp : (sname, o) ∈ path
    · simp [hp]
    · simp only [if_neg hp]
      cases hs : env.lookup sname with
      | none => rfl
      | some fs =>
        exact dumpFieldsV_ext st st' (dumpObj env st f) (dumpObj env st' f)
          hg hb (fun r u p => ih r u p) o ((sname, o) :: path) fs

/-- C9: `dump` interacts with the process state only by reading attributes
and the `Book.all` registry (and the heap size fixing the fuel): two stores
that agree on every `getattr` result, on `books` and on heap size receive
identical dumps.  The engine takes the store as a read-only input and
returns a freshly assembled document, so it mutates neither the source
object nor any related object. -/
theorem c9_dump_reads_only (env : SEnv) (sname : String) (st st' : Store)
    (o : ObjId)
    (hg : ∀ q m, getattr st q m = getattr st' q m)
    (hb : st.books = st'.books)
    (hh : st.heap.length = st'.heap.length) :
    dump env sname st o = dump env sname st' o := by
  unfold dump topFuel
  rw [hh]
  exact dumpObj_ext env st st' hg hb (env.length * st'.heap.length + 2) sname o []

/-- C9, witness: the extensionality theorem applied at the demo store. -/
theorem c9_witness :
    dump envRepo "BookSchema" demoStore book_1 =
      dump envRepo "BookSchema" demoStore book_1 :=
  c9_dump_reads_only envRepo "BookSchema" demoStore demoStore book_1
    (fun _ _ => rfl) rfl rfl

/-! Registry lemmas: how construction extends the heap and the class-level
registries. -/

/-- Appending a fresh heap entry does not change lookups of other keys. -/
theorem lookup_append_ne {β : Type} (l : List (ObjId × β)) (k e : ObjId) (v : β)
    (h : k ≠ e) : (l ++ [(e, v)]).lookup k = l.lookup k := by
  induction l with
  | nil => simp [List.lookup, beq_eq_false_iff_ne.mpr h]
  | cons p rest ih =>
    obtain ⟨k1, v1⟩ := p
    cases hk : k == k1 <;> simp [List.lookup, hk, ih]

/-- Appending an entry under a key absent from the list makes that entry
the lookup result. -/
theorem lookup_append_self {β : Type} (l : List (ObjId × β)) (k : ObjId) (v : β)
    (h : ∀ p ∈ l, p.1 ≠ k) : (l ++ [(k, v)]).lookup k = some v := by
  induction l with
  | nil => simp [List.lookup]
  | cons p rest ih =>
    obtain ⟨k1, v1⟩ := p
    have hk : (k == k1) = false :=
      beq_eq_false_iff_ne.mpr (fun he => h (k1, v1) (by simp) (by simp [he]))
    simp only [List.cons_append, List.lookup, hk]
    exact ih (fun p hp => h p (by simp [hp]))

/-- Constructing an Author leaves every other object's attributes as they
were. -/
theorem getattr_author_init (st : Store) (nm em : String) (q : ObjId) (m : String)
    (hq : q ≠ st.nextId) :
    getattr (Author.init st nm em).snd q m = getattr st q m := by
  simp only [getattr, Author.init]
  rw [lookup_append_ne st.heap q st.nextId _ hq]

/-- Constructing a Book leaves every other object's attributes as they
were. -/
theorem getattr_book_init_ne (st : Store) (i t : String) (a : ObjId)
    (q : ObjId) (m : String) (hq : q ≠ st.nextId) :
    getattr (Book.init st i t a).snd q m = getattr st q m := by
  simp only [getattr, Book.init]
  rw [lookup_append_ne st.heap q st.nextId _ hq]

/-- A freshly constructed Book's `author` attribute is the author it was
constructed with. -/
theorem getattr_book_init_self (st : Store) (i t : String) (a : ObjId)
    (hk : heapKeysBelow st) :
    getattr (Book.init st i t a).snd st.nextId "author" = some (.ref a) := by
  simp only [getattr, Book.init]
  rw [lookup_append_self st.heap st.nextId _ (fun p hp => Nat.ne_of_lt (hk p hp))]
  rfl

/-- Constructing an Author keeps the heap-key invariant. -/
theorem heapKeysBelow_author_init (st : Store) (nm em : String)
    (hk : heapKeysBelow st) : heapKeysBelow (Author.init st nm em).snd := by
  intro p hp
  simp only [Author.init] at hp
  rcases List.mem_append.mp hp with h | h
  · exact Nat.lt_succ_of_lt (hk p h)
  · rw [List.mem_singleton] at h
    rw [h]
    exact Nat.lt_succ_self _

/-- Constructing a Book keeps the heap-key invariant. -/
theorem heapKeysBelow_book_init (st : Store) (i t : String) (a : ObjId)
    (hk : heapKeysBelow st) : heapKeysBelow (Book.init st i t a).snd := by
  intro p hp
  simp only [Book.init] at hp
  rcases List.mem_append.mp hp with h | h
  · exact Nat.lt_succ_of_lt (hk p h)
  · rw [List.mem_singleton] at h
    rw [h]
    exact Nat.lt_succ_self _

/-- Constructing an Author keeps the book-registry invariant. -/
theorem booksBelow_author_init (st : Store) (nm em : String)
    (hb : booksBelow st) : booksBelow (Author.init st nm em).snd := by
  intro b hbm
  exact Nat.lt_succ_of_lt (hb b hbm)

/-- Constructing a Book keeps the book-registry invariant. -/
theorem booksBelow_book_init (st : Store) (i t : String) (a : ObjId)
    (hb : booksBelow st) : booksBelow (Book.init st i t a).snd := by
  intro b hbm
  rcases List.mem_append.mp hbm with h | h
  · exact Nat.lt_succ_of_lt (hb b h)
  · rw [List.mem_singleton] at h
    rw [h]
    exact Nat.lt_succ_self _

/-- Constructing an Author changes no Author's book list. -/
theorem get_books_author_init (st : Store) (nm em : String) (a : ObjId)
    (hb : booksBelow st) :
    Author.get_books (Author.init st nm em).snd a = Author.get_books st a := by
  unfold Author.get_books
  exact List.filter_congr (fun b hbm => by
    rw [getattr_author_init st nm em b "author" (Nat.ne_of_lt (hb b hbm))])

/-- Constructing a Book appends its id to exactly its own author's book
list, at the end. -/
theorem get_books_book_init (st : Store) (i t : String) (a a' : ObjId)
    (hk : heapKeysBelow st) (hb : booksBelow st) :
    Author.get_books (Book.init st i t a).snd a' =
      Author.get_books st a' ++ (if a = a' then [st.nextId] else []) := by
  unfold Author.get_books
  have hbooks : (Book.init st i t a).snd.books = st.books ++ [st.nextId] := rfl
  rw [hbooks, List.filter_append]
  congr 1
  · exact List.filter_congr (fun b hbm => by
      rw [getattr_book_init_ne st i t a b "author" (Nat.ne_of_lt (hb b hbm))])
  · simp only [List.filter]
    rw [getattr_book_init_self st i t a hk]
    by_cases h : a = a'
    · simp [h]
    · have hf : (a == a') = false := beq_eq_false_iff_ne.mpr h
      simp [h, hf]

/-- The derived book list after any construction sequence: the books it
registered for author `a`, behind whatever the starting store already
held. -/
theorem get_books_runCtors (a : ObjId) :
    ∀ (cs : List Ctor) (st : Store), heapKeysBelow st → booksBelow st →
      Author.get_books (runCtors cs st) a =
        Author.get_books st a ++ booksConstructedWith cs st.nextId a := by
  intro cs
  induction cs with
  | nil => intro st _ _; simp [runCtors, booksConstructedWith]
  | cons c rest ih =>
    intro st hk hb
    cases c with
    | newAuthor nm em =>
      have H := ih (Author.init st nm em).snd
        (heapKeysBelow_author_init st nm em hk) (booksBelow_author_init st nm em hb)
      rw [show runCtors (Ctor.newAuthor nm em :: rest) st =
            runCtors rest (Author.init st nm em).snd from rfl, H,
        get_books_author_init st nm em a hb]
      rfl
    | newBook i t a' =>
      have H := ih (Book.init st i t a').snd
        (heapKeysBelow_book_init st i t a' hk) (booksBelow_book_init st i t a' hb)
      rw [show runCtors (Ctor.newBook i t a' :: rest) st =
            runCtors rest (Book.init st i t a').snd from rfl, H,
        get_books_book_init st i t a' a hk hb]
      show (Author.get_books st a ++ (if a' = a then [st.nextId] else [])) ++
          booksConstructedWith rest (st.nextId + 1) a =
        Author.get_books st a ++
          booksConstructedWith (Ctor.newBook i t a' :: rest) st.nextId a
      by_cases h : a' = a <;> simp [booksConstructedWith, h, List.append_assoc]

/-- The registries after any construction sequence hold exactly the ids the
sequence assigned, in construction order, behind the starting store's. -/
theorem registries_runCtors :
    ∀ (cs : List Ctor) (st : Store),
      (runCtors cs st).authors = st.authors ++ authorIdsSpec cs st.nextId ∧
      (runCtors cs st).books = st.books ++ bookIdsSpec cs st.nextId := by
  intro cs
  induction cs with
  | nil => intro st; constructor <;> simp [runCtors, authorIdsSpec, bookIdsSpec]
  | cons c rest ih =>
    intro st
    cases c with
    | newAuthor nm em =>
      obtain ⟨h1, h2⟩ := ih (Author.init st nm em).snd
      constructor
      · rw [show runCtors (Ctor.newAuthor nm em :: rest) st =
              runCtors rest (Author.init st nm em).snd from rfl, h1]
        show (st.authors ++ [st.nextId]) ++ authorIdsSpec rest (st.nextId + 1) =
          st.authors ++ authorIdsSpec (Ctor.newAuthor nm em :: rest) st.nextId
        simp [authorIdsSpec, List.append_assoc]
      · rw [show runCtors (Ctor.newAuthor nm em :: rest) st =
              runCtors rest (Author.init st nm em).snd from rfl, h2]
        rfl
    | newBook i t a' =>
      obtain ⟨h1, h2⟩ := ih (Book.init st i t a').snd
      constructor
      · rw [show runCtors (Ctor.newBook i t a' :: rest) st =
              runCtors rest (Book.init st i t a').snd from rfl, h1]
        rfl
      · rw [show runCtors (Ctor.newBook i t a' :: rest) st =
              runCtors rest (Book.init st i t a').snd from rfl, h2]
        show (st.books ++ [st.nextId]) ++ bookIdsSpec rest (st.nextId + 1) =
          st.books ++ bookIdsSpec (Ctor.newBook i t a' :: rest) st.nextId
        simp [bookIdsSpec, List.append_assoc]

/-- Book membership in a derived book list pins down the author identity:
a book appears in at most one author's `get_books`. -/
theorem get_books_identity (st : Store) (a a' b : ObjId)
    (h1 : b ∈ Author.get_books st a) (h2 : b ∈ Author.get_books st a') :
    a = a' := by
  unfold Author.get_books at h1 h2
  have p1 := List.of_mem_filter h1
  have p2 := List.of_mem_filter h2
  cases hg : getattr st b "author" with
  | none => rw [hg] at p1; simp at p1
  | some at1 =>
    cases at1 with
    | str s => rw [hg] at p1; simp at p1
    | ref x =>
      rw [hg] at p1 p2
      have e1 : x = a := by simpa using p1
      have e2 : x = a' := by simpa using p2
      rw [← e1, ← e2]

/-- C4: `Author.get_books` returns exactly the Books constructed with this
author, at the identities construction assigned, in registration order —
for every construction sequence run from the empty store; and a schema
exposing this derived collection dumps those Books' documents in that
order, as in the spec's two-Book example on the repository's data. -/
theorem c4_get_books_registration_order :
    (∀ (cs : List Ctor) (a : ObjId),
      Author.get_books (runCtors cs emptyStore) a = booksConstructedWith cs 0 a) ∧
    dump envDerived "AuthorWithBooksSchema" demoStore author_1 =
      .ok [("name", .vstr "William Faulkner"), ("email", .vstr "will@email.com"),
           ("books", .vlist
             [[("isbn", .vstr "067973225X"), ("title", .vstr "As I Lay Dying")],
              [("isbn", .vstr "0679732241"),
               ("title", .vstr "The Sound and the Fury")]])] := by
  constructor
  · intro cs a
    have h := get_books_runCtors a cs emptyStore
      (fun p hp => absurd hp (List.not_mem_nil p))
      (fun b hb => absurd hb (List.not_mem_nil b))
    simpa [Author.get_books, emptyStore] using h
  · rfl

/-- C10: after any construction sequence the class-level registries hold
exactly the constructed instances' ids in construction order; membership in
a derived book list is decided by author identity alone, so a book belongs
to at most one author's list; concretely, a second Author constructed with
the same `name` and `email` as `author_1` gets an empty book list while
`author_1` keeps `[book_1, book_2]`. -/
theorem c10_registries_and_identity :
    (∀ cs : List Ctor,
      (runCtors cs emptyStore).authors = authorIdsSpec cs 0 ∧
      (runCtors cs emptyStore).books = bookIdsSpec cs 0) ∧
    (∀ (st : Store) (a a' b : ObjId),
      b ∈ Author.get_books st a → b ∈ Author.get_books st a' → a = a') ∧
    Author.get_books dupStore author_dup = [] ∧
    Author.get_books dupStore author_1 = [book_1, book_2] := by
  refine ⟨?_, fun st a a' b h1 h2 => get_books_identity st a a' b h1 h2, rfl, rfl⟩
  intro cs
  obtain ⟨h1, h2⟩ := registries_runCtors cs emptyStore
  constructor
  · simpa [emptyStore] using h1
  · simpa [emptyStore] using h2

/-- C10, witness: the identity conjunct applied at the demo store. -/
theorem c10_witness :
    book_1 ∈ Author.get_books demoStore author_1 ∧ author_1 = author_1 :=
  ⟨by decide,
   c10_registries_and_identity.2.1 demoStore author_1 author_1 book_1
     (by decide) (by decide)⟩
